import Mathlib

/-!
Shallow embedding of the `config_package` repository
(`config_field.py`, `config_template.py`, `base_configuration.py`).

Documents are nested string-keyed maps (Python dicts, modelled as
association lists in insertion order); values are the scalar and dict
runtime values the repository manipulates.  Fallible Python code
(assertions, `list.remove`, `dict[...]`, `getattr`, malformed calls)
is modelled with `Except ConfigError`.
-/

namespace ConfigManager

/-- Runtime type tags for document values (Python classes `int`, `bool`,
`str`, `dict`). -/
inductive PyType where
  | tInt
  | tBool
  | tStr
  | tDict
deriving DecidableEq, Repr

/-- Document values: the heterogeneous values stored in a configuration
dictionary. -/
inductive Value where
  | vInt (n : Int)
  | vBool (b : Bool)
  | vStr (s : String)
  | vDict (d : List (String × Value))

/-- Runtime type of a value, as Python's `type(...)` reports it. -/
def typeOf : Value → PyType
  | .vInt _ => .tInt
  | .vBool _ => .tBool
  | .vStr _ => .tStr
  | .vDict _ => .tDict

/-- Python `isinstance(v, t)` for one type tag: `bool` is a subclass of
`int`, so a `bool` value passes an `int` check. -/
def pyIsInstance (v : Value) (t : PyType) : Bool :=
  match typeOf v, t with
  | .tBool, .tInt => true
  | a, b => a = b

/-- Python `isinstance(v, tuple_of_types)`: membership in any of the
permitted types. -/
def isinstanceAny (v : Value) (ts : List PyType) : Bool :=
  ts.any (pyIsInstance v)

mutual
/-- Python `==` on values: `int`/`bool` cross-compare numerically
(`True == 1`); dicts compare entrywise (documents in this development
always list equal dicts in the same key order). -/
def valueEq : Value → Value → Bool
  | .vInt a, .vInt b => a == b
  | .vInt a, .vBool b => a == (if b then (1 : Int) else 0)
  | .vBool a, .vInt b => (if a then (1 : Int) else 0) == b
  | .vBool a, .vBool b => a == b
  | .vStr a, .vStr b => a == b
  | .vDict a, .vDict b => dictValueEq a b
  | _, _ => false

/-- Entrywise dict comparison used by `valueEq`. -/
def dictValueEq : List (String × Value) → List (String × Value) → Bool
  | [], [] => true
  | (k, v) :: rest, (k2, v2) :: rest2 => k == k2 && valueEq v v2 && dictValueEq rest rest2
  | _, _ => false
end

/-- Python dict lookup `d.get(k)` / `d[k]` on an association list:
first (unique) binding. -/
def alookup {α : Type} : List (String × α) → String → Option α
  | [], _ => none
  | (k2, v) :: rest, k => if k2 = k then some v else alookup rest k

/-- Python dict assignment `d[k] = v`: replace the existing binding in
place, else append. -/
def aset {α : Type} : List (String × α) → String → α → List (String × α)
  | [], k, v => [(k, v)]
  | (k2, v2) :: rest, k, v => if k2 = k then (k, v) :: rest else (k2, v2) :: aset rest k v

/-- Python `list.remove(x)`: delete the first occurrence, `none` when the
element is absent (Python raises `ValueError` there). -/
def removeFirst : List String → String → Option (List String)
  | [], _ => none
  | x :: xs, y => if x = y then some xs else (removeFirst xs y).map (x :: ·)

/-- The failure modes of the repository, as raised Python exceptions:
the spec's named errors plus the plain Python exceptions the code can
raise (`ValueError` from `list.remove`, `KeyError` from dict indexing,
`AttributeError` from `getattr`/`.get`/`.keys`, `TypeError` from a
malformed call, `AssertionError` from constructor checks). -/
inductive ConfigError where
  | missingField (fieldName : String) (level : String)
  | typeError (fieldName : String) (level : String) (actual : PyType) (expected : List PyType)
  | requirementError (fieldName : String) (level : String) (index : Nat)
  | unvalidatedFields (level : String) (leftover : List String)
  | duplicateBinding (name : String)
  | unknownProperty (name : String)
  | valueError (element : String)
  | keyError (name : String)
  | attributeError (name : String)
  | pyTypeError (message : String)
  | constructionError (message : String)
deriving DecidableEq, Repr

/-- Embeds `config_field.Field`: leaf schema descriptor.  The constructor stores
the supplied values unchanged (`tuple(types)` preserves the contents of
the list); `requirements` keeps the `Optional` shape of the source. -/
structure Field where
  name : String
  key : String
  types : List PyType
  requirements : Option (List (Value → Bool))

/-- Embeds `Field.__init__`: it performs no validation whatsoever — in particular
an empty `types` list is accepted. -/
def Field.make (name key : String) (types : List PyType)
    (requirements : Option (List (Value → Bool))) : Field :=
  { name := name, key := key, types := types, requirements := requirements }

mutual
/-- Embeds `config_template.Template`: one schema tree node.  `checkCount`
models the mutable `_check_count` attribute. -/
inductive Template where
  | mk (fields : List Field) (nested : TemplateList) (keyPref : Option String)
      (level : Option (List String)) (depVars : Option (List String))
      (depVals : Option (List (List Value))) (checkCount : Nat)

/-- The `nested_templates` list of a `Template`. -/
inductive TemplateList where
  | nil
  | cons (t : Template) (ts : TemplateList)
end

/-- Embeds `Template.__init__`: it initialises `_check_count` to 0 and asserts that
`dependent_variables`, when supplied, comes with a
`dependent_variables_required_values` list of equal length. -/
def Template.make (fields : List Field) (nested : TemplateList) (keyPref : Option String)
    (level : Option (List String)) (depVars : Option (List String))
    (depVals : Option (List (List Value))) : Except ConfigError Template :=
  match depVars with
  | none => .ok (.mk fields nested keyPref level depVars depVals 0)
  | some dvs =>
      match depVals with
      | none => .error (.constructionError "required values for dependent variables missing")
      | some vls =>
          if dvs.length = vls.length then
            .ok (.mk fields nested keyPref level depVars depVals 0)
          else
            .error (.constructionError "dependent variables length mismatch")

/-- Accessor for `Template.check_count`. -/
def Template.checkCountOf : Template → Nat
  | .mk _ _ _ _ _ _ c => c

/-- Embeds `Template.register_check`: it increments `_check_count` by one. -/
def register_check : Template → Template
  | .mk fields nested keyPref level depVars depVals c =>
      .mk fields nested keyPref level depVars depVals (c + 1)

/-- Normalise the `level` attribute by Python truthiness: `None` and the
empty list both behave as "no level" (`if template.level:`). -/
def levelSegs : Option (List String) → List String
  | none => []
  | some l => l

/-- Embeds `Template.template_name`: last segment of a truthy `level`, else
`None`. -/
def template_name : Template → Option String
  | .mk _ _ _ level _ _ _ => (levelSegs level).getLast?

/-- Accessor for `Template.fields`. -/
def Template.fieldsOf : Template → List Field
  | .mk fields _ _ _ _ _ _ => fields

/-- Accessor for `Template.nested_templates` (`or []` in the source). -/
def Template.nestedOf : Template → TemplateList
  | .mk _ nested _ _ _ _ _ => nested

/-- The `template_name`s of a list of nested templates (for stating
exhaustiveness). -/
def childNames : TemplateList → List String
  | .nil => []
  | .cons c cs =>
      (match template_name c with
       | some n => [n]
       | none => []) ++ childNames cs

/-- State of a `BaseConfiguration` instance: the live configuration
dictionary, the dynamically bound attributes (Python instance dict), and
the three side maps. -/
structure BState where
  configuration : List (String × Value)
  bound : List (String × Value)
  keyMap : List (String × Option (List String))
  typesMap : List (String × List PyType)
  reqMap : List (String × Option (List (Value → Bool)))

/-- Attribute names that exist on every `BaseConfiguration` object before
any property is bound: the attributes set in `__init__` and the methods
and properties of the class (Python object dunders are omitted: no claim
touches them).  `config` is a property returning the configuration dict;
it is modelled as an internal-attribute marker since no claim inspects
its value. -/
def reservedAttrs : List String :=
  ["_configuration", "_template", "_attribute_name_key_map",
   "_attribute_name_types_map", "_attribute_name_requirements_map",
   "_validate_field", "_validate_field_type", "_validate_field_requirements",
   "_template_is_needed", "_check_and_set_template",
   "config", "save_configuration", "get_property", "_set_property",
   "_set_attribute_name_types_map", "_set_attribute_name_requirements_map",
   "_set_attribute_name_key_map", "add_property", "amend_property"]

/-- Result of `getattr(self, name)`: either a dynamically bound property
value or a pre-existing internal attribute/method of the class. -/
inductive Attr where
  | userVal (v : Value)
  | internalAttr (name : String)

/-- Python `hasattr(self, name)`. -/
def hasattrB (st : BState) (name : String) : Bool :=
  reservedAttrs.contains name || (alookup st.bound name).isSome

/-- Python `getattr(self, name)`: bound instance attributes first (bound
names can never collide with the reserved class attributes, because
`_set_property` guards on `hasattr`), then class attributes, else
`AttributeError`. -/
def getattrB (st : BState) (name : String) : Except ConfigError Attr :=
  match alookup st.bound name with
  | some v => .ok (.userVal v)
  | none =>
      if reservedAttrs.contains name then .ok (.internalAttr name)
      else .error (.attributeError name)

/-- Membership test `getattr(self, dv) in required_values`: an internal
attribute (a bound method) is never `==` to a document value. -/
def attrInValues (a : Attr) (vs : List Value) : Bool :=
  match a with
  | .userVal v => vs.any (valueEq v)
  | .internalAttr _ => false

/-- Embeds `data.get(level)` during path resolution: only a dict has `.get`;
`None` or a scalar raises `AttributeError`. -/
def pyGet : Option Value → String → Except ConfigError (Option Value)
  | some (.vDict d), k => .ok (alookup d k)
  | _, _ => .error (.attributeError "get")

/-- Resolve the document fragment for a template: start from the
configuration dict and follow the level segments with `.get`
(`base_configuration.py` lines 106-110). -/
def resolveData (configuration : List (String × Value)) : List String → Except ConfigError (Option Value)
  | [] => .ok (some (.vDict configuration))
  | seg :: rest =>
      match pyGet (some (.vDict configuration)) seg with
      | .error e => .error e
      | .ok v => resolveRest v rest
where
  /-- Continue the fold over the remaining segments. -/
  resolveRest : Option Value → List String → Except ConfigError (Option Value)
    | v, [] => .ok v
    | v, seg :: rest =>
        match pyGet v seg with
        | .error e => .error e
        | .ok v2 => resolveRest v2 rest

/-- Embeds `_validate_field_type` (lines 59-77): `isinstance` gate with an
assertion error carrying field name, level, actual type and the
permitted types. -/
def validate_field_type (fieldValue : Value) (fieldName : String)
    (permittedTypes : List PyType) (level : String) : Except ConfigError Unit :=
  if isinstanceAny fieldValue permittedTypes then .ok ()
  else .error (.typeError fieldName level (typeOf fieldValue) permittedTypes)

/-- Requirement loop of `_validate_field_requirements`: first failing
predicate index is reported. -/
def reqLoop (v : Value) (fieldName level : String) : Nat → List (Value → Bool) → Except ConfigError Unit
  | _, [] => .ok ()
  | r, p :: ps =>
      if p v then reqLoop v fieldName level (r + 1) ps
      else .error (.requirementError fieldName level r)

/-- Embeds `_validate_field_requirements` (lines 79-96): `None` (and an empty
list, both falsy) skip the loop. -/
def validate_field_requirements (fieldValue : Value) (fieldName : String)
    (fieldRequirements : Option (List (Value → Bool))) (level : String) : Except ConfigError Unit :=
  match fieldRequirements with
  | none => .ok ()
  | some rs => reqLoop fieldValue fieldName level 0 rs

/-- Embeds `_validate_field` (lines 47-57): presence, then type, then
requirements. -/
def validate_field (f : Field) (data : List (String × Value)) (level : String) : Except ConfigError Unit :=
  match alookup data f.name with
  | none => .error (.missingField f.name level)
  | some v =>
      match validate_field_type v f.name f.types level with
      | .error e => .error e
      | .ok _ => validate_field_requirements v f.name f.requirements level

/-- Embeds `_set_property` (lines 176-192): refuse to overwrite any existing
attribute, then `setattr` (append to the instance dict). -/
def set_property (st : BState) (name : String) (v : Value) : Except ConfigError BState :=
  if hasattrB st name then .error (.duplicateBinding name)
  else .ok { st with bound := st.bound ++ [(name, v)] }

/-- The `all(getattr(self, dv) in rv for ...)` generator of
`_template_is_needed`: short-circuits on the first falsy membership, so
a later `getattr` failure is not reached. -/
def needAll (st : BState) : List (String × List Value) → Except ConfigError Bool
  | [] => .ok true
  | (dv, rv) :: rest =>
      match getattrB st dv with
      | .error e => .error e
      | .ok a => if attrInValues a rv then needAll st rest else .ok false

/-- Embeds `_template_is_needed` (lines 98-103): zip of the dependent variables
with their required value lists (`zip` with `None` raises `TypeError`;
the `Template` constructor rules that out for trees it built). -/
def template_is_needed (st : BState) (depVars : List String)
    (depVals : Option (List (List Value))) : Except ConfigError Bool :=
  match depVals with
  | none => .error (.pyTypeError "zip argument is not iterable")
  | some vls => needAll st (depVars.zip vls)

/-- The level name of `_check_and_set_template` (lines 107-112):
joined path segments, or `ROOT` for a falsy level. -/
def levelNameOf (level : Option (List String)) : String :=
  if (levelSegs level).isEmpty then "ROOT" else String.intercalate "/" (levelSegs level)

/-- The activation guard of `_check_and_set_template` (line 115):
`not template.dependent_variables or self._template_is_needed(...)`,
with Python truthiness on the dependent-variable list. -/
def activation (st : BState) (depVars : Option (List String))
    (depVals : Option (List (List Value))) : Except ConfigError Bool :=
  match depVars with
  | none => .ok true
  | some [] => .ok true
  | some (d :: ds) => template_is_needed st (d :: ds) depVals

/-- The field loop of `_check_and_set_template` (lines 119-126): validate
the field, bind its value under `field.key` (the key is used verbatim —
no key-prefixing happens anywhere), record the three side maps, and
remove the field's document name from the pending list. -/
def processFields (level : Option (List String)) (levelName : String)
    (data : List (String × Value)) :
    BState → List String → List Field → Except ConfigError (BState × List String)
  | st, ftc, [] => .ok (st, ftc)
  | st, ftc, f :: fs =>
      match validate_field f data levelName with
      | .error e => .error e
      | .ok _ =>
          match alookup data f.name with
          | none => .error (.missingField f.name levelName)
          | some v =>
              match set_property st f.key v with
              | .error e => .error e
              | .ok st1 =>
                  let st2 : BState :=
                    { st1 with
                      keyMap := aset st1.keyMap f.key level,
                      typesMap := aset st1.typesMap f.key f.types,
                      reqMap := aset st1.reqMap f.key f.requirements }
                  match removeFirst ftc f.name with
                  | none => .error (.valueError f.name)
                  | some ftc2 => processFields level levelName data st2 ftc2 fs

mutual
/-- Embeds `_check_and_set_template` (lines 105-133): resolve the fragment,
evaluate the activation guard (an inactive template's body is skipped
entirely), validate and bind the fields, recurse into the nested
templates, and assert that no document key at this level is left
unvalidated.  `register_check` is never invoked, and the template tree
is never mutated, so the function returns only the binder state. -/
def check_and_set_template (st : BState) : Template → Except ConfigError BState
  | .mk fields nested _keyPref level depVars depVals _c =>
      match resolveData st.configuration (levelSegs level) with
      | .error e => .error e
      | .ok dataRef =>
          match activation st depVars depVals with
          | .error e => .error e
          | .ok false => .ok st
          | .ok true =>
              match dataRef with
              | some (.vDict d) =>
                  match processFields level (levelNameOf level) d st (d.map Prod.fst) fields with
                  | .error e => .error e
                  | .ok (st1, ftc1) =>
                      match processChildren st1 ftc1 nested with
                      | .error e => .error e
                      | .ok (st2, ftc2) =>
                          if ftc2.isEmpty then .ok st2
                          else .error (.unvalidatedFields (levelNameOf level) ftc2)
              | _ => .error (.attributeError "keys")

/-- The nested-template loop of `_check_and_set_template` (lines
127-129): recurse, then unconditionally `fields_to_check.remove(name)` —
whether or not the child turned out active; a `ValueError` is raised
when the child's name is not a pending key. -/
def processChildren : BState → List String → TemplateList → Except ConfigError (BState × List String)
  | st, ftc, .nil => .ok (st, ftc)
  | st, ftc, .cons c cs =>
      match check_and_set_template st c with
      | .error e => .error e
      | .ok st1 =>
          match template_name c with
          | none => .error (.valueError "None")
          | some n =>
              match removeFirst ftc n with
              | none => .error (.valueError n)
              | some ftc2 => processChildren st1 ftc2 cs
end

/-- The state a fresh `BaseConfiguration.__init__` sets up before calling
`_check_and_set_template` (lines 35-40). -/
def initState (configuration : List (String × Value)) : BState :=
  { configuration := configuration, bound := [], keyMap := [], typesMap := [], reqMap := [] }

/-- Embeds `BaseConfiguration.__init__` (lines 27-42): store the configuration,
initialise the empty side maps, and run the validation walk from the
root template. -/
def initBaseConfiguration (configuration : List (String × Value)) (t : Template) :
    Except ConfigError BState :=
  check_and_set_template (initState configuration) t

/-- Embeds `get_property` (lines 160-174): plain `getattr`. -/
def get_property (st : BState) (name : String) : Except ConfigError Attr :=
  getattrB st name

/-- Embeds `add_property` (lines 216-226): `_set_property` (duplicate guard)
then a top-level write into the configuration dict.  The three side maps
are not touched. -/
def add_property (st : BState) (name : String) (v : Value) : Except ConfigError BState :=
  match set_property st name v with
  | .error e => .error e
  | .ok st1 => .ok { st1 with configuration := aset st1.configuration name v }

/-- Embeds `amend_property` (lines 228-250): assert the attribute exists, fetch
the three side-map entries (`KeyError` when an entry is missing), then
call `_validate_field_type` — but the source call (line 245) omits the
required `level` parameter, so Python raises `TypeError` before any
validation; the remaining lines (including the call to the undefined
`_maybe_reconfigure`) are unreachable. -/
def amend_property (st : BState) (name : String) (_v : Value) : Except ConfigError BState :=
  if hasattrB st name then
    match alookup st.keyMap name with
    | none => .error (.keyError name)
    | some _ =>
        match alookup st.typesMap name with
        | none => .error (.keyError name)
        | some _ =>
            match alookup st.reqMap name with
            | none => .error (.keyError name)
            | some _ =>
                .error (.pyTypeError "validate_field_type missing 1 required positional argument: level")
  else .error (.unknownProperty name)

/-- Invariant checked by claim C7: every bound key has an entry in each
of the three side maps. -/
def sideMapsCover (st : BState) : Bool :=
  st.bound.all fun p =>
    (alookup st.keyMap p.1).isSome && (alookup st.typesMap p.1).isSome &&
      (alookup st.reqMap p.1).isSome

/-! Concrete fixtures used to settle the claims. -/

/-- A one-field root template binding document key `x` to property `x`. -/
def tSimple : Template :=
  .mk [Field.make "x" "x" [.tInt] none] .nil none none none none 0

/-- Document matching `tSimple`. -/
def dSimple : List (String × Value) := [("x", .vInt 1)]

/-- The binder state produced by validating `dSimple` against `tSimple`. -/
def stSimple : BState :=
  { configuration := dSimple, bound := [("x", .vInt 1)],
    keyMap := [("x", none)], typesMap := [("x", [.tInt])],
    reqMap := [("x", none)] }

/-- The conditional-activation tree of claim C2: a root field
`animal_type`, a child activated on `animal_type == "cat"` binding
`cat_whiskers`, and a sibling activated on `animal_type == "dog"`
binding `dog_whiskers`. -/
def rootT2 : Template :=
  .mk [Field.make "animal_type" "animal_type" [.tStr] none]
    (.cons (.mk [Field.make "whiskers" "cat_whiskers" [.tBool] none] .nil none
        (some ["cat"]) (some ["animal_type"]) (some [[.vStr "cat"]]) 0)
      (.cons (.mk [Field.make "whiskers" "dog_whiskers" [.tBool] none] .nil none
        (some ["dog"]) (some ["animal_type"]) (some [[.vStr "dog"]]) 0) .nil))
    none none none none 0

/-- A document for `rootT2` choosing the cat branch, with no `dog` key at
all. -/
def docNoDog : List (String × Value) :=
  [("animal_type", .vStr "cat"), ("cat", .vDict [("whiskers", .vBool true)])]

/-- A document for `rootT2` choosing the cat branch, with a `dog` entry of
arbitrary content. -/
def docWithDog (v : Value) : List (String × Value) :=
  [("animal_type", .vStr "cat"), ("cat", .vDict [("whiskers", .vBool true)]), ("dog", v)]

/-- The binder state produced by validating `docWithDog v` against
`rootT2`: only the root field and the cat branch bind properties. -/
def finalStateC2 (v : Value) : BState :=
  { configuration := docWithDog v,
    bound := [("animal_type", .vStr "cat"), ("cat_whiskers", .vBool true)],
    keyMap := [("animal_type", none), ("cat_whiskers", some ["cat"])],
    typesMap := [("animal_type", [.tStr]), ("cat_whiskers", [.tBool])],
    reqMap := [("animal_type", none), ("cat_whiskers", none)] }

/-- A root template with a `key_prefix` of `cat` on its own level,
binding document key `a` to field key `whiskers` (claim C4). -/
def tPrefixed : Template :=
  .mk [Field.make "a" "whiskers" [.tInt] none] .nil (some "cat") none none none 0

/-- Document matching `tPrefixed`. -/
def dPrefixed : List (String × Value) := [("a", .vInt 1)]

/-- A root template whose only field binds to the reserved method name
`get_property` (claim C10). -/
def tReserved : Template :=
  .mk [Field.make "a" "get_property" [.tInt] none] .nil none none none none 0

/-- An empty root template (no fields, no children), used with a document
holding one unexpected key (claim C1 witness). -/
def tEmpty : Template := .mk [] .nil none none none none 0

/-- A document with a single key no schema accounts for. -/
def dJunk : List (String × Value) := [("junk", .vInt 1)]

/-- A `Field` accepting exactly `int` (claim C9). -/
def fIntField : Field := Field.make "a" "a" [.tInt] none

/-- The binder state produced by validating `dPrefixed` against
`tPrefixed`: the bound key is the field's `key` verbatim, without the
`cat` key-prefix. -/
def stPrefixed : BState :=
  { configuration := dPrefixed, bound := [("whiskers", .vInt 1)],
    keyMap := [("whiskers", none)], typesMap := [("whiskers", [.tInt])],
    reqMap := [("whiskers", none)] }

/-- The state produced by `add_property` of `x` on an empty binder: the
three side maps stay empty. -/
def stAdd : BState :=
  { configuration := [("x", .vInt 1)], bound := [("x", .vInt 1)],
    keyMap := [], typesMap := [], reqMap := [] }

/-- The state produced by `add_property` of `z` on an empty binder. -/
def stZ : BState :=
  { configuration := [("z", .vInt 1)], bound := [("z", .vInt 1)],
    keyMap := [], typesMap := [], reqMap := [] }

/-- The state produced by `add_property` of `y` on `stSimple`. -/
def stY : BState :=
  { configuration := [("x", .vInt 1), ("y", .vInt 2)],
    bound := [("x", .vInt 1), ("y", .vInt 2)],
    keyMap := [("x", none)], typesMap := [("x", [.tInt])],
    reqMap := [("x", none)] }

/-! Helper lemmas about the association-list and pending-list
primitives. -/

/-- Removal of a different element by `list.remove` keeps a present element. -/
theorem mem_removeFirst {l l' : List String} {x y : String}
    (h : removeFirst l y = some l') (hx : x ∈ l) (hne : x ≠ y) : x ∈ l' := by
  induction l generalizing l' with
  | nil => simp [removeFirst] at h
  | cons a as ih =>
      by_cases hay : a = y
      · subst hay
        simp only [removeFirst, if_pos rfl] at h
        cases h
        rcases List.mem_cons.mp hx with rfl | hmem
        · exact absurd rfl hne
        · exact hmem
      · simp only [removeFirst, if_neg hay] at h
        obtain ⟨l2, hl2, rfl⟩ := Option.map_eq_some'.mp h
        rcases List.mem_cons.mp hx with rfl | hmem
        · exact List.mem_cons_self _ _
        · exact List.mem_cons_of_mem _ (ih hl2 hmem)

/-- A key looked up after an `==`-guarded replacement is still found. -/
theorem alookup_aset_isSome {α : Type} (m : List (String × α)) (k k' : String) (v : α)
    (h : (alookup m k').isSome = true) : (alookup (aset m k v) k').isSome = true := by
  induction m with
  | nil => simp [alookup] at h
  | cons p rest ih =>
      by_cases hpk : p.1 = k
      · simp only [aset, hpk, if_pos]
        by_cases hkk : k = k'
        · simp [alookup, hkk]
        · simp only [alookup, hkk, if_neg]
          simpa [alookup, hpk, hkk] using h
      · simp only [aset, hpk, if_neg]
        by_cases hpk' : p.1 = k'
        · simp [alookup, hpk']
        · simp only [alookup, hpk', if_neg]
          exact ih (by simpa [alookup, hpk'] using h)

/-- Replacement binds the assigned key. -/
theorem alookup_aset_self {α : Type} (m : List (String × α)) (k : String) (v : α) :
    alookup (aset m k v) k = some v := by
  induction m with
  | nil => simp [aset, alookup]
  | cons p rest ih =>
      by_cases hpk : p.1 = k
      · simp [aset, hpk, alookup]
      · simp [aset, hpk, alookup, ih]

/-- Appending a fresh binding makes it visible when the key was absent. -/
theorem alookup_append_fresh {α : Type} (l : List (String × α)) (k : String) (v : α)
    (h : alookup l k = none) : alookup (l ++ [(k, v)]) k = some v := by
  induction l with
  | nil => simp [alookup]
  | cons p rest ih =>
      by_cases hpk : p.1 = k
      · simp [alookup, hpk] at h
      · simp only [List.cons_append, alookup, hpk, if_neg]
        exact ih (by simpa [alookup, hpk] using h)

/-- A pending key that names no field survives a successful field loop. -/
theorem processFields_mem :
    ∀ (fs : List Field) (lv : Option (List String)) (ln : String)
      (d : List (String × Value)) (st : BState) (ftc : List String)
      (st' : BState) (ftc' : List String) (x : String),
      processFields lv ln d st ftc fs = .ok (st', ftc') → x ∈ ftc →
      x ∉ fs.map Field.name → x ∈ ftc'
  | [], lv, ln, d, st, ftc, st', ftc', x => by
      intro h hx _
      simp only [processFields] at h
      cases h
      exact hx
  | f :: fs, lv, ln, d, st, ftc, st', ftc', x => by
      intro h hx hxf
      have hxname : x ≠ f.name := by
        intro hcontra
        exact hxf (by simp [hcontra])
      have hxfs : x ∉ fs.map Field.name := by
        intro hcontra
        exact hxf (by simp [hcontra])
      simp only [processFields] at h
      split at h
      · exact absurd h (by simp)
      · split at h
        · exact absurd h (by simp)
        · split at h
          · exact absurd h (by simp)
          · split at h
            · exact absurd h (by simp)
            · rename_i ftc2 hrm
              exact processFields_mem fs lv ln d _ ftc2 st' ftc' x h
                (mem_removeFirst hrm hx hxname) hxfs

/-- A pending key that names no child template survives a successful
children loop. -/
theorem processChildren_mem :
    ∀ (ts : TemplateList) (st : BState) (ftc : List String)
      (st' : BState) (ftc' : List String) (x : String),
      processChildren st ftc ts = .ok (st', ftc') → x ∈ ftc →
      x ∉ childNames ts → x ∈ ftc'
  | .nil, st, ftc, st', ftc', x => by
      intro h hx _
      simp only [processChildren] at h
      cases h
      exact hx
  | .cons c cs, st, ftc, st', ftc', x => by
      intro h hx hxc
      simp only [processChildren] at h
      split at h
      · exact absurd h (by simp)
      · split at h
        · exact absurd h (by simp)
        · rename_i n hname
          have hxn : x ≠ n := by
            intro hcontra
            exact hxc (by simp [childNames, hname, hcontra])
          have hxcs : x ∉ childNames cs := by
            intro hcontra
            exact hxc (by simp [childNames, hcontra])
          split at h
          · exact absurd h (by simp)
          · rename_i ftc2 hrm
            exact processChildren_mem cs _ ftc2 st' ftc' x h
              (mem_removeFirst hrm hx hxn) hxcs

/-- Inversion of a successful `_set_property`: the guard was clear and
the value was appended to the instance dict. -/
theorem set_property_ok {st st1 : BState} {k : String} {v : Value}
    (h : set_property st k v = .ok st1) :
    hasattrB st k = false ∧ st1 = { st with bound := st.bound ++ [(k, v)] } := by
  unfold set_property at h
  split at h
  · exact absurd h (by simp)
  · rename_i hh
    cases h
    exact ⟨by simpa using hh, rfl⟩

/-- Binding one field (value plus its three side-map entries) preserves
side-map coverage. -/
theorem cover_bind_step (st st1 : BState) (k : String) (v : Value)
    (lv : Option (List String)) (tys : List PyType) (rq : Option (List (Value → Bool)))
    (hcov : sideMapsCover st = true) (h : set_property st k v = .ok st1) :
    sideMapsCover { st1 with keyMap := aset st1.keyMap k lv,
                             typesMap := aset st1.typesMap k tys,
                             reqMap := aset st1.reqMap k rq } = true := by
  obtain ⟨-, rfl⟩ := set_property_ok h
  simp only [sideMapsCover, List.all_eq_true] at hcov ⊢
  intro p hp
  rcases List.mem_append.mp hp with hmem | hmem
  · have hc := hcov p hmem
    simp only [Bool.and_eq_true] at hc ⊢
    exact ⟨⟨alookup_aset_isSome _ _ _ _ hc.1.1, alookup_aset_isSome _ _ _ _ hc.1.2⟩,
      alookup_aset_isSome _ _ _ _ hc.2⟩
  · have hpk : p.1 = k := by
      rcases List.mem_singleton.mp hmem with rfl
      rfl
    simp [Bool.and_eq_true, hpk, alookup_aset_self]

/-- The field loop of the walk preserves side-map coverage. -/
theorem cover_processFields :
    ∀ (fs : List Field) (lv : Option (List String)) (ln : String)
      (d : List (String × Value)) (st : BState) (ftc : List String)
      (st' : BState) (ftc' : List String),
      sideMapsCover st = true → processFields lv ln d st ftc fs = .ok (st', ftc') →
      sideMapsCover st' = true
  | [], lv, ln, d, st, ftc, st', ftc' => by
      intro hcov h
      simp only [processFields] at h
      cases h
      exact hcov
  | f :: fs, lv, ln, d, st, ftc, st', ftc' => by
      intro hcov h
      simp only [processFields] at h
      split at h
      · exact absurd h (by simp)
      · split at h
        · exact absurd h (by simp)
        · rename_i v hv
          split at h
          · exact absurd h (by simp)
          · rename_i st1 hsp
            split at h
            · exact absurd h (by simp)
            · rename_i ftc2 hrm
              exact cover_processFields fs lv ln d _ ftc2 st' ftc'
                (cover_bind_step st st1 f.key v lv f.types f.requirements hcov hsp) h

mutual
/-- A successful walk of one template preserves side-map coverage. -/
theorem cover_check_and_set :
    ∀ (t : Template) (st st' : BState),
      sideMapsCover st = true → check_and_set_template st t = .ok st' →
      sideMapsCover st' = true
  | .mk fields nested kp level dv dvl c, st, st' => by
      intro hcov h
      simp only [check_and_set_template] at h
      split at h
      · exact absurd h (by simp)
      · split at h
        · exact absurd h (by simp)
        · cases h
          exact hcov
        · split at h
          · rename_i d hd
            split at h
            · exact absurd h (by simp)
            · rename_i st1 ftc1 hpf
              split at h
              · exact absurd h (by simp)
              · rename_i st2 ftc2 hpc
                split at h
                · cases h
                  exact cover_processChildren nested st1 ftc1 st' ftc2
                    (cover_processFields fields level (levelNameOf level) d st
                      (d.map Prod.fst) st1 ftc1 hcov hpf) hpc
                · exact absurd h (by simp)
          · exact absurd h (by simp)

/-- A successful children loop preserves side-map coverage. -/
theorem cover_processChildren :
    ∀ (ts : TemplateList) (st : BState) (ftc : List String)
      (st' : BState) (ftc' : List String),
      sideMapsCover st = true → processChildren st ftc ts = .ok (st', ftc') →
      sideMapsCover st' = true
  | .nil, st, ftc, st', ftc' => by
      intro hcov h
      simp only [processChildren] at h
      cases h
      exact hcov
  | .cons c cs, st, ftc, st', ftc' => by
      intro hcov h
      simp only [processChildren] at h
      split at h
      · exact absurd h (by simp)
      · rename_i st1 hcs
        split at h
        · exact absurd h (by simp)
        · split at h
          · exact absurd h (by simp)
          · rename_i ftc2 hrm
            exact cover_processChildren cs st1 ftc2 st' ftc'
              (cover_check_and_set c st st1 hcov hcs) h
end

/-! The claims. -/

/-- C2 counterexample: in the cat/dog conditional-activation scenario,
when the inactive `dog` child's document entry is entirely absent the
validation walk fails (a `ValueError` raised by the parent's
unconditional `fields_to_check.remove("dog")`), contradicting the claim
that an absent inactive-child entry never causes `Validate` to fail. -/
theorem c2_counterexample :
    initBaseConfiguration docNoDog rootT2 = .error (.valueError "dog") := rfl

/-- C2 (amended): with `animal_type = "cat"`, only the cat child's fields
are required and bound; the `dog` child's content is arbitrary and its
fields are never bound — but its key must still be present at the parent
level, because the parent removes every child's name from the pending
set unconditionally. -/
theorem c2_conditional_activation (v : Value) :
    initBaseConfiguration (docWithDog v) rootT2 = .ok (finalStateC2 v)
    ∧ alookup (finalStateC2 v).bound "dog_whiskers" = none
    ∧ alookup (finalStateC2 v).bound "cat_whiskers" = some (.vBool true)
    ∧ alookup (finalStateC2 v).bound "animal_type" = some (.vStr "cat") :=
  ⟨rfl, rfl, rfl, rfl⟩

/-- C3 counterexample: a full, successful validation pass of `tSimple`
(one attempt of the root template) leaves its `check_count` at 0, not 1:
`_check_and_set_template` never calls `register_check`. -/
theorem c3_counterexample :
    check_and_set_template (initState dSimple) tSimple = .ok stSimple
    ∧ Template.checkCountOf tSimple = 0 := ⟨rfl, rfl⟩

/-- C3 (amended): `register_check` increments `check_count` by one and
the `Template` constructor initialises it to 0, but the validation walk
never invokes `register_check` (it returns only the binder state), so
after a full `Validate` pass every template's `check_count` is still 0. -/
theorem c3_register_check :
    (∀ t : Template, (register_check t).checkCountOf = t.checkCountOf + 1)
    ∧ (∀ (fs : List Field) (ns : TemplateList) (kp : Option String)
        (lv : Option (List String)),
        Template.make fs ns kp lv none none = .ok (.mk fs ns kp lv none none 0))
    ∧ check_and_set_template (initState dSimple) tSimple = .ok stSimple
    ∧ Template.checkCountOf tSimple = 0 := by
  refine ⟨?_, fun fs ns kp lv => rfl, rfl, rfl⟩
  intro t
  cases t
  rfl

/-- C4 counterexample: under a template whose `key_prefix` is `cat`, a
field with binding key `whiskers` is bound under `whiskers`, not under
`cat_whiskers`: the walk never consults `key_prefix`. -/
theorem c4_counterexample :
    initBaseConfiguration dPrefixed tPrefixed = .ok stPrefixed
    ∧ alookup stPrefixed.bound "cat_whiskers" = none
    ∧ alookup stPrefixed.bound "whiskers" = some (.vInt 1) := ⟨rfl, rfl, rfl⟩

/-- C5 (code bug): `amend_property` on a never-bound key fails with the
unknown-property assertion, but on any properly bound key it raises a
Python `TypeError` before validating anything, because the source calls
`_validate_field_type` (and `_validate_field_requirements`) without the
required `level` argument; the documented re-validate-and-update
behaviour is unreachable. -/
theorem c5_amend_crash :
    initBaseConfiguration dSimple tSimple = .ok stSimple
    ∧ amend_property stSimple "x" (.vInt 2) =
        .error (.pyTypeError
          "validate_field_type missing 1 required positional argument: level")
    ∧ amend_property stSimple "y" (.vInt 2) = .error (.unknownProperty "y") :=
  ⟨rfl, rfl, rfl⟩

/-- C8 counterexample: constructing a `Field` with an empty accepted-type
set succeeds — the constructor performs no check, so no
`ConstructionError` is raised. -/
theorem c8_counterexample :
    Field.make "a" "b" [] none =
      { name := "a", key := "b", types := [], requirements := none }
    ∧ (Field.make "a" "b" [] none).types = [] := ⟨rfl, rfl⟩

/-- C8 (amended): `Field` construction never fails; for every input —
including an empty accepted-type set — the accessors return the supplied
name, key, types and predicates unchanged, and a `Field` with an empty
type set simply fails every later type check. -/
theorem c8_field_construction (n k : String) (ts : List PyType)
    (rs : Option (List (Value → Bool))) :
    (Field.make n k ts rs).name = n ∧ (Field.make n k ts rs).key = k
    ∧ (Field.make n k ts rs).types = ts ∧ (Field.make n k ts rs).requirements = rs
    ∧ ∀ (v : Value) (lvl : String),
        validate_field_type v n (Field.make n k [] rs).types lvl =
          .error (.typeError n lvl (typeOf v) []) := by
  refine ⟨rfl, rfl, rfl, rfl, fun v lvl => rfl⟩

/-- C9 counterexample: for a `Field` accepting exactly `{int}`, a
document value of runtime type `bool` validates successfully even though
its runtime type is not `int`: Python's `isinstance` treats `bool` as a
subclass of `int`. -/
theorem c9_counterexample :
    validate_field fIntField [("a", .vBool true)] "ROOT" = .ok ()
    ∧ typeOf (.vBool true) ≠ PyType.tInt := ⟨rfl, by decide⟩

/-- C10: properties live as attributes of the configuration object and
duplicates are detected with `hasattr`, so pre-existing attribute names
collide: `add_property("config", ...)` and binding a field to the key
`get_property` both fail with the duplicate-binding error although those
keys were never bound, while `get_property("save_configuration")`
returns the internal class attribute instead of failing. -/
theorem c10_reserved_names :
    add_property (initState []) "config" (.vInt 1) =
      .error (.duplicateBinding "config")
    ∧ initBaseConfiguration [("a", .vInt 1)] tReserved =
        .error (.duplicateBinding "get_property")
    ∧ get_property (initState []) "save_configuration" =
        .ok (.internalAttr "save_configuration") := ⟨rfl, rfl, rfl⟩

/-- C1: at any level the walk processes to completion, a document key
that names no field of the level's template and no child template is
never removed from the pending set, so the level fails with the
unvalidated-fields error naming the level path and the leftover keys
(the offending key among them); consequently the walk of such a level
never succeeds — `Validate` succeeds only when the pending set is empty
at every visited level. -/
theorem c1_exhaustiveness
    (st : BState) (fields : List Field) (nested : TemplateList)
    (keyPref : Option String) (level : Option (List String))
    (depVars : Option (List String)) (depVals : Option (List (List Value)))
    (c : Nat) (d : List (String × Value)) (x : String)
    (hres : resolveData st.configuration (levelSegs level) = .ok (some (.vDict d)))
    (hact : activation st depVars depVals = .ok true)
    (hx : x ∈ d.map Prod.fst)
    (hxf : x ∉ fields.map Field.name)
    (hxc : x ∉ childNames nested) :
    (∀ st1 ftc1 st2 ftc2,
        processFields level (levelNameOf level) d st (d.map Prod.fst) fields =
          .ok (st1, ftc1) →
        processChildren st1 ftc1 nested = .ok (st2, ftc2) →
        check_and_set_template st (.mk fields nested keyPref level depVars depVals c) =
          .error (.unvalidatedFields (levelNameOf level) ftc2) ∧ x ∈ ftc2)
    ∧ ∀ st', check_and_set_template st (.mk fields nested keyPref level depVars depVals c) ≠
        .ok st' := by
  constructor
  · intro st1 ftc1 st2 ftc2 hpf hpc
    have hx1 := processFields_mem fields level (levelNameOf level) d st
      (d.map Prod.fst) st1 ftc1 x hpf hx hxf
    have hx2 := processChildren_mem nested st1 ftc1 st2 ftc2 x hpc hx1 hxc
    have hne : ftc2.isEmpty = false := by
      cases ftc2 with
      | nil => simp at hx2
      | cons a as => rfl
    refine ⟨?_, hx2⟩
    simp only [check_and_set_template, hres, hact, hpf, hpc, hne]
    simp
  · intro st' hok
    rcases hpf : processFields level (levelNameOf level) d st (d.map Prod.fst) fields
      with e | p
    · simp only [check_and_set_template, hres, hact, hpf] at hok
      exact Except.noConfusion hok
    · obtain ⟨st1, ftc1⟩ := p
      rcases hpc : processChildren st1 ftc1 nested with e | q
      · simp only [check_and_set_template, hres, hact, hpf, hpc] at hok
        exact Except.noConfusion hok
      · obtain ⟨st2, ftc2⟩ := q
        have hx1 := processFields_mem fields level (levelNameOf level) d st
          (d.map Prod.fst) st1 ftc1 x hpf hx hxf
        have hx2 := processChildren_mem nested st1 ftc1 st2 ftc2 x hpc hx1 hxc
        have hne : ftc2.isEmpty = false := by
          cases ftc2 with
          | nil => simp at hx2
          | cons a as => rfl
        simp only [check_and_set_template, hres, hact, hpf, hpc, hne] at hok
        simp at hok

/-- C1 witness: a root document with the single unexpected key `junk`
against an empty template fails with the unvalidated-fields error
listing `junk`. -/
theorem c1_exhaustiveness_witness :
    check_and_set_template (initState dJunk) tEmpty =
      .error (.unvalidatedFields "ROOT" ["junk"]) ∧ "junk" ∈ ["junk"] :=
  (c1_exhaustiveness (initState dJunk) [] .nil none none none none 0 dJunk "junk"
    rfl rfl (by simp [dJunk]) (by simp) (by simp [childNames])).1
    (initState dJunk) ["junk"] (initState dJunk) ["junk"] rfl rfl

/-- C4 (amended): the validation result is entirely independent of a
template's `key_prefix` (the walk never reads it), and a validated field
is bound under exactly its own `bindingKey` — so the claimed
`keyPrefix + "_" + bindingKey` (or ancestor-prefixed) key computation
does not happen. -/
theorem c4_bound_key (fields : List Field) (nested : TemplateList)
    (kp kp2 : Option String) (level : Option (List String))
    (depVars : Option (List String)) (depVals : Option (List (List Value)))
    (c : Nat) (st : BState) :
    (check_and_set_template st (.mk fields nested kp level depVars depVals c) =
      check_and_set_template st (.mk fields nested kp2 level depVars depVals c))
    ∧ ∀ (f : Field) (ln : String) (d : List (String × Value)) (ftc : List String)
        (st' : BState) (ftc' : List String),
        processFields level ln d st ftc [f] = .ok (st', ftc') →
        alookup st'.bound f.key = alookup d f.name := by
  constructor
  · rfl
  · intro f ln d ftc st' ftc' h
    simp only [processFields] at h
    split at h
    · exact absurd h (by simp)
    · split at h
      · exact absurd h (by simp)
      · rename_i v hv
        split at h
        · exact absurd h (by simp)
        · rename_i st1 hsp
          split at h
          · exact absurd h (by simp)
          · rename_i ftc2 hrm
            cases h
            obtain ⟨hfalse, rfl⟩ := set_property_ok hsp
            rw [hv]
            have hnone : alookup st.bound f.key = none := by
              simp only [hasattrB, Bool.or_eq_false_iff] at hfalse
              exact Option.not_isSome_iff_eq_none.mp (by simp [hfalse.2])
            exact alookup_append_fresh st.bound f.key v hnone

/-- C4 witness: one concrete field loop binds document key `a`'s value
under the field key `whiskers` verbatim. -/
theorem c4_bound_key_witness :
    alookup stPrefixed.bound "whiskers" = alookup dPrefixed "a" :=
  (c4_bound_key [Field.make "a" "whiskers" [.tInt] none] .nil (some "cat")
      (some "cat") none none none 0 (initState dPrefixed)).2
    (Field.make "a" "whiskers" [.tInt] none) "ROOT" dPrefixed ["a"]
    stPrefixed [] rfl

/-- C6: a key already present as a bound attribute makes `add_property`
fail with the duplicate-binding error; two successive `add_property`
calls with the same key always fail on the second; and `amend_property`
can never fail with the duplicate-binding error. -/
theorem c6_no_silent_overwrite (st : BState) (k : String) (v w : Value) :
    ((alookup st.bound k).isSome = true →
      add_property st k v = .error (.duplicateBinding k))
    ∧ (∀ st1, add_property st k v = .ok st1 →
        add_property st1 k w = .error (.duplicateBinding k))
    ∧ ∀ u : Value, amend_property st k u ≠ .error (.duplicateBinding k) := by
  refine ⟨?_, ?_, ?_⟩
  · intro hb
    have hattr : hasattrB st k = true := by
      simp [hasattrB, hb]
    simp [add_property, set_property, hattr]
  · intro st1 hadd
    unfold add_property at hadd
    rcases hsp : set_property st k v with e | st1'
    · simp only [hsp] at hadd
      exact Except.noConfusion hadd
    · simp only [hsp] at hadd
      cases hadd
      obtain ⟨hfalse, rfl⟩ := set_property_ok hsp
      simp only [hasattrB, Bool.or_eq_false_iff] at hfalse
      have hnone : alookup st.bound k = none :=
        Option.not_isSome_iff_eq_none.mp (by simp [hfalse.2])
      have happ := alookup_append_fresh st.bound k v hnone
      simp [add_property, set_property, hasattrB, happ]
  · intro u hcontra
    unfold amend_property at hcontra
    split at hcontra
    · split at hcontra
      · simp at hcontra
      · split at hcontra
        · simp at hcontra
        · split at hcontra
          · simp at hcontra
          · simp at hcontra
    · simp at hcontra

/-- C6 witness: on concrete states, a validated binding of `x` rejects
`add_property("x", ...)`, a second `add_property("z", ...)` rejects the
repeat, and amending the bound `x` does not raise the duplicate-binding
error. -/
theorem c6_no_silent_overwrite_witness :
    add_property stSimple "x" (.vInt 2) = .error (.duplicateBinding "x")
    ∧ add_property stZ "z" (.vInt 2) = .error (.duplicateBinding "z")
    ∧ amend_property stSimple "x" (.vInt 5) ≠ .error (.duplicateBinding "x") :=
  ⟨(c6_no_silent_overwrite stSimple "x" (.vInt 2) (.vInt 2)).1 rfl,
   (c6_no_silent_overwrite (initState []) "z" (.vInt 1) (.vInt 2)).2.1 stZ rfl,
   (c6_no_silent_overwrite stSimple "x" (.vInt 5) (.vInt 5)).2.2 (.vInt 5)⟩

/-- C7 (amended): a configuration built by the validation walk satisfies
the side-map invariant — every bound key has an entry in each of the
three side maps — but a successful `add_property` adds the new key to
the instance dict and the configuration only, leaving all three side
maps untouched, so keys added that way violate the invariant. -/
theorem c7_side_maps (cfg : List (String × Value)) (t : Template)
    (st' st1 : BState) (k : String) (v : Value)
    (hinit : initBaseConfiguration cfg t = .ok st') :
    sideMapsCover st' = true
    ∧ (add_property st' k v = .ok st1 →
        st1.keyMap = st'.keyMap ∧ st1.typesMap = st'.typesMap
          ∧ st1.reqMap = st'.reqMap) := by
  constructor
  · exact cover_check_and_set t (initState cfg) st' rfl hinit
  · intro hadd
    unfold add_property at hadd
    rcases hsp : set_property st' k v with e | st2
    · simp only [hsp] at hadd
      exact Except.noConfusion hadd
    · simp only [hsp] at hadd
      cases hadd
      obtain ⟨-, rfl⟩ := set_property_ok hsp
      exact ⟨rfl, rfl, rfl⟩

/-- C7 witness: the validated binder `stSimple` satisfies the invariant,
and `add_property("y", ...)` on it leaves the three side maps exactly as
they were (so the new key `y` has no side-map entries). -/
theorem c7_side_maps_witness :
    sideMapsCover stSimple = true
    ∧ stY.keyMap = stSimple.keyMap ∧ stY.typesMap = stSimple.typesMap
      ∧ stY.reqMap = stSimple.reqMap :=
  ⟨(c7_side_maps dSimple tSimple stSimple stY "y" (.vInt 2) rfl).1,
   (c7_side_maps dSimple tSimple stSimple stY "y" (.vInt 2) rfl).2 rfl⟩

/-- C7 counterexample: a successful `add_property` of a brand-new key on
an empty binder produces a state in which the key is bound but the three
side maps are all empty, so the claimed invariant fails after a
successful `AddProperty`. -/
theorem c7_counterexample :
    add_property (initState []) "x" (.vInt 1) = .ok stAdd
    ∧ (alookup stAdd.bound "x").isSome = true
    ∧ sideMapsCover stAdd = false := ⟨rfl, rfl, rfl⟩

/-- C9 (amended): for a field accepting exactly `{int}`, a document value
whose runtime type is neither `int` nor `bool` always fails with the
type error (naming field, level, actual type and expected set); a value
of runtime type `int` that passes all predicates validates successfully;
but a `bool` also passes the gate, since Python's `isinstance` treats
`bool` as a subclass of `int`. -/
theorem c9_type_gate (f : Field) (d : List (String × Value)) (lvl : String)
    (v : Value) (hty : f.types = [PyType.tInt]) (hlk : alookup d f.name = some v) :
    ((typeOf v ≠ PyType.tInt ∧ typeOf v ≠ PyType.tBool) →
      validate_field f d lvl = .error (.typeError f.name lvl (typeOf v) f.types))
    ∧ (typeOf v = PyType.tInt →
        validate_field_requirements v f.name f.requirements lvl = .ok () →
        validate_field f d lvl = .ok ()) := by
  constructor
  · intro ⟨h1, h2⟩
    have hinst : isinstanceAny v f.types = false := by
      rw [hty]
      cases v <;> simp_all [isinstanceAny, pyIsInstance, typeOf]
    simp only [validate_field, hlk, validate_field_type, hinst]
    simp
  · intro h1 h2
    have hinst : isinstanceAny v f.types = true := by
      rw [hty]
      cases v <;> simp_all [isinstanceAny, pyIsInstance, typeOf]
    simp only [validate_field, hlk, validate_field_type, hinst]
    simpa using h2

/-- C9 witness: against `{int}`, a string value fails with the type
error and an `int` value validates. -/
theorem c9_type_gate_witness :
    validate_field fIntField [("a", .vStr "s")] "ROOT" =
      .error (.typeError "a" "ROOT" .tStr [.tInt])
    ∧ validate_field fIntField [("a", .vInt 3)] "ROOT" = .ok () :=
  ⟨(c9_type_gate fIntField [("a", .vStr "s")] "ROOT" (.vStr "s") rfl rfl).1
      ⟨by decide, by decide⟩,
   (c9_type_gate fIntField [("a", .vInt 3)] "ROOT" (.vInt 3) rfl rfl).2 rfl rfl⟩

end ConfigManager

